import Mathlib

/-!
Verification development for the sura-classifier-app repository.

The development embeds, as executable Lean definitions, the parts of the
program that the properties below are about:

* `email_classifier.py`: the keyword-pattern tables, the attachment
  analysis (`analyze_attachments`), the three category evaluators
  (`classify_cotizacion`, `classify_renovacion`, `classify_endoso`), the
  per-message classifier (`classify_email`) and the batch aggregator
  (`classify_all_emails`).
* `pst_extractor.py`: the attachment extraction (`extract_attachments`),
  the per-message processing order (`process_message`) and the progress
  checkpointing of a run (`save_progress` inside `process_message`,
  `extract`, and the interrupt handling in `extract_pst.py`).

Python's `re` module is standard-library code outside this repository, so
regular-expression matching is treated as an oracle (`ReOracle`): the
classifier definitions are parametric in the oracle, and concrete runs use
explicitly tabulated oracles whose entries record what
`re.search(pattern, text, re.IGNORECASE)` returns on the concrete strings
involved.  Everything else is computed.
-/

/-- Uppercase mapping for a single character, modelling Python `str.upper`
on the alphabet that occurs in this program's data (ASCII letters plus the
Spanish accented vowels and ñ). -/
def pyUpperChar (c : Char) : Char :=
  if c = 'á' then 'Á' else if c = 'é' then 'É' else if c = 'í' then 'Í'
  else if c = 'ó' then 'Ó' else if c = 'ú' then 'Ú' else if c = 'ñ' then 'Ñ'
  else c.toUpper

/-- Python `str.upper`, character by character. -/
def pyUpper (s : String) : String := ⟨s.data.map pyUpperChar⟩

/-- Helper for substring containment on character lists. -/
def containsAux (sub : List Char) : List Char → Bool
  | [] => sub.isPrefixOf []
  | c :: rest => sub.isPrefixOf (c :: rest) || containsAux sub rest

/-- Python `sub in s` substring test. -/
def strContains (s sub : String) : Bool := containsAux sub.data s.data

/-- Python `s.endswith(suffix)`. -/
def endsWithStr (s suffix : String) : Bool := suffix.data.isSuffixOf s.data

/-- Oracle for Python's `re` standard-library module (code outside this
repository).  `search pat text` tells whether
`re.search(pat, text, re.IGNORECASE)` finds a match, and
`searchGroup1 pat text` returns `group(1)` of the first match of a pattern
with one capture group (`none` when there is no match). -/
structure ReOracle where
  search : String → String → Bool
  searchGroup1 : String → String → Option String

/-- Subject keyword patterns for Cotización (CA1), from `setup_patterns`. -/
def cotizacion_asunto_patterns : List String :=
  ["\\bCOTIZACI[OÓ]N\\b",
   "\\bCOT\\.\\b",
   "\\bCOT\\b(?!\\w)",
   "\\bCOT RESIDENCIAL\\b",
   "\\bAPOYO COTIZACION\\b",
   "\\bAGENTE\\s+\\d+",
   "\\bAG\\s+\\d+"]

/-- Body keyword patterns for Cotización (CA3), from `setup_patterns`. -/
def cotizacion_cuerpo_patterns : List String :=
  ["solicito su apoyo cotizando",
   "apoyo para cotizar",
   "solicitud de cotizaci[óo]n",
   "\\bAGENTE\\s+\\d+"]

/-- Subject keyword patterns for Renovación, from `setup_patterns`. -/
def renovacion_asunto_patterns : List String :=
  ["\\bRENOVACI[OÓ]N\\b",
   "\\bRENOVAR\\b",
   "\\bRENOVACIONES\\b",
   "\\bREHABILITACI[OÓ]N\\b",
   "\\bPR[OÓ]RROGA\\b",
   "\\bRV\\b",
   "\\bRENOV\\b",
   "\\bCOTI RENOVACI[OÓ]N\\b"]

/-- Body keyword patterns for Renovación, from `setup_patterns`. -/
def renovacion_cuerpo_patterns : List String :=
  ["vigencia pr[óo]xima a vencer",
   "solicito renovaci[óo]n",
   "renovar p[óo]liza",
   "dar continuidad a la p[óo]liza",
   "pr[óo]rroga de la vigencia",
   "rehabilitaci[óo]n de p[óo]liza",
   "continuidad de p[óo]liza",
   "renovar p[óo]liza \\d+"]

/-- Subject keyword patterns for Endoso, from `setup_patterns`. -/
def endoso_asunto_patterns : List String :=
  ["\\bENDOSO\\b",
   "\\bENDOSOS\\b",
   "\\bENDOSAR\\b",
   "\\bENDORSEMENT\\b",
   "\\bENDOSO [AB]\\b",
   "\\bENDOSO DE BP\\b",
   "\\bENDOSO ESPECIAL\\b",
   "\\bENDOSO.*MODIFICACI[OÓ]N\\b",
   "\\bMODIFICACI[OÓ]N.*ENDOSO\\b",
   "\\bINCISO \\d+\\b",
   "CORRECCI[OÓ]N DE DATO",
   "CAMBIO DE COBERTURA",
   "INCREMENTO DE SUMA ASEGURADA",
   "\\bOT-\\d+",
   "DOCUMENTO \\d+",
   "MODIFICACI[OÓ]N.*NO\\s+OT",
   "ENDOSO.*\\(.*(MODIFICACI[OÓ]N|CAMBIO|CORRECCI[OÓ]N).*\\)"]

/-- Body keyword patterns for Endoso, from `setup_patterns`. -/
def endoso_cuerpo_patterns : List String :=
  ["correcci[óo]n de dato",
   "modificar inciso",
   "incluir.\x7b0,20\x7dbeneficiario",
   "excluir.\x7b0,20\x7dbeneficiario",
   "cambiar suma asegurada",
   "actualizaci[óo]n de cobertura",
   "actualizaci[óo]n de beneficios",
   "incorporaci[óo]n de cl[áa]usulas"]

/-- Capture patterns of `extract_agente_code`. -/
def agente_code_patterns : List String :=
  ["\\bAGENTE\\s+(\\d+)", "\\bAG\\s+(\\d+)"]

/-- Capture patterns of `extract_poliza_number`. -/
def poliza_number_patterns : List String :=
  ["\\bp[óo]liza\\s+(\\d+)",
   "\\bP[ÓO]LIZA\\s+(\\d+)",
   "\\bOT\\s+(\\d+)",
   "\\bN[ÚU]MERO\\s+(\\d+)"]

/-- First capture-group hit over a pattern list, mirroring the
`for pattern in patterns: ... return match.group(1)` loops. -/
def first_group_match (o : ReOracle) : List String → String → Option String
  | [], _ => none
  | p :: ps, text =>
    match o.searchGroup1 p text with
    | some g => some g
    | none => first_group_match o ps text

/-- `extract_agente_code` from `email_classifier.py` (`""` when nothing
matches, as in the source). -/
def extract_agente_code (o : ReOracle) (text : String) : String :=
  (first_group_match o agente_code_patterns text).getD ""

/-- `extract_poliza_number` from `email_classifier.py`. -/
def extract_poliza_number (o : ReOracle) (text : String) : String :=
  (first_group_match o poliza_number_patterns text).getD ""

/-- Metadata record of a message as the classifier consumes it; `subject`
stands for `metadata.get('subject', '')`. -/
structure Metadata where
  subject : String
deriving DecidableEq

/-- Extracted body text of a message; `combined_text` stands for
`email_content.get('combined_text', '')`, the only field the evaluators
read. -/
structure EmailContent where
  combined_text : String
deriving DecidableEq

/-- The `attachment_info` dictionary built by `analyze_attachments`. -/
structure AttachmentInfo where
  has_slip : Bool := false
  slip_complete : Bool := false
  slip_files : List String := []
  pdf_cotizacion : List String := []
  pdf_poliza : List String := []
  pdf_renovacion : List String := []
  pdf_endoso : List String := []
  excel_files : List String := []
  total_attachments : Nat := 0
deriving DecidableEq

/-- A file found in a message's attachment directory, as
`analyze_attachments` sees it.  `filledCells` is the number of non-empty
cells `openpyxl` counts in the workbook and `loadOk` whether
`load_workbook` succeeds (both only relevant for SLIP Excel files). -/
structure StoredFile where
  filename : String
  filledCells : Nat := 0
  loadOk : Bool := true

/-- True when the uppercased filename ends in `.XLSX` or `.XLS`. -/
def isExcelName (f : String) : Bool :=
  endsWithStr f ".XLSX" || endsWithStr f ".XLS"

/-- One iteration of the `analyze_attachments` loop (the `elif` chain over
a single file). -/
def analyze_step (info : AttachmentInfo) (f : StoredFile) : AttachmentInfo :=
  let fname := pyUpper f.filename
  let info := { info with total_attachments := info.total_attachments + 1 }
  if isExcelName fname && strContains fname "SLIP" then
    { info with
      has_slip := true
      slip_files := info.slip_files ++ [f.filename]
      slip_complete := if f.loadOk then decide (f.filledCells > 5) else info.slip_complete }
  else if isExcelName fname then
    { info with excel_files := info.excel_files ++ [f.filename] }
  else if endsWithStr fname ".PDF" &&
      (["COTIZACION", "COT", "PROPUESTA", "SEGURO MULTIPLE EMPRESARIAL"].any
        (fun w => strContains fname w)) then
    { info with pdf_cotizacion := info.pdf_cotizacion ++ [f.filename] }
  else if endsWithStr fname ".PDF" &&
      (["POLIZA", "PBE", "RECIBO"].any (fun w => strContains fname w)) then
    { info with pdf_poliza := info.pdf_poliza ++ [f.filename] }
  else if endsWithStr fname ".PDF" &&
      (["RENOVACION", "RENOVAR", "CONDICIONES DE RENOVACION", "PRORROGA",
        "REHABILITACION"].any (fun w => strContains fname w)) then
    { info with pdf_renovacion := info.pdf_renovacion ++ [f.filename] }
  else if endsWithStr fname ".PDF" &&
      (["ENDOSO", "BENEFICIOS", "INCISO", "CORRECCION", "MODIFICACION"].any
        (fun w => strContains fname w)) then
    { info with pdf_endoso := info.pdf_endoso ++ [f.filename] }
  else info

/-- `analyze_attachments` from `email_classifier.py`, over the files of
the message's attachment directory in iteration order. -/
def analyze_attachments (files : List StoredFile) : AttachmentInfo :=
  files.foldl analyze_step {}

/-- Result dictionary of `classify_cotizacion`. -/
structure CotizacionResult where
  is_cotizacion : Bool
  confidence : Int
  criteria_met : List String
  agente_code : String
  status : String
deriving DecidableEq

/-- Result dictionary of `classify_renovacion`. -/
structure RenovacionResult where
  is_renovacion : Bool
  confidence : Int
  criteria_met : List String
  poliza_number : String
  status : String
deriving DecidableEq

/-- Result dictionary of `classify_endoso`. -/
structure EndosoResult where
  is_endoso : Bool
  confidence : Int
  criteria_met : List String
  poliza_number : String
  endoso_type : String
  status : String
deriving DecidableEq

/-- `classify_cotizacion` from `email_classifier.py`. -/
def classify_cotizacion (o : ReOracle) (metadata : Metadata)
    (attachment_info : AttachmentInfo) (email_content : EmailContent) :
    CotizacionResult :=
  let asunto := pyUpper metadata.subject
  let cuerpo := pyUpper email_content.combined_text
  let ca1 := cotizacion_asunto_patterns.any (fun p => o.search p asunto)
  let agente_code :=
    let a := extract_agente_code o asunto
    if a ≠ "" then a else extract_agente_code o cuerpo
  let ca3 := cotizacion_cuerpo_patterns.any (fun p => o.search p cuerpo)
  let score : Int :=
    (if ca1 then 30 else 0)
    + (if agente_code ≠ "" then 20 else 0)
    + (if ca3 then 15 else 0)
    + (if attachment_info.has_slip then
        25 + (if attachment_info.slip_complete then 15 else 0) else 0)
    + (if attachment_info.pdf_cotizacion ≠ [] then 20 else 0)
    - (if attachment_info.pdf_poliza ≠ [] then 15 else 0)
  let criteria_met :=
    (if ca1 then ["CA1: Palabra clave en asunto"] else [])
    ++ (if agente_code ≠ "" then ["CA2: Código de agente detectado"] else [])
    ++ (if ca3 then ["CA3: Palabra clave en cuerpo del email"] else [])
    ++ (if attachment_info.has_slip then
          "CA4: Archivo SLIP detectado" ::
          (if attachment_info.slip_complete then ["CA5: SLIP completo"]
           else ["CA5: SLIP vacío o incompleto"])
        else [])
    ++ (if attachment_info.pdf_cotizacion ≠ [] then
          ["CA6: PDF de cotización presente"] else [])
    ++ (if attachment_info.pdf_poliza ≠ [] then
          ["CA7/CA10: Contiene documentos de póliza vigente"] else [])
  let status0 :=
    if attachment_info.has_slip then
      (if attachment_info.slip_complete then "Cotización con información completa"
       else "Cotización pendiente")
    else ""
  let is_cot := decide (score ≥ 40)
  let status := if status0 = "" ∧ is_cot = true then "Cotización detectada" else status0
  { is_cotizacion := is_cot
    confidence := min 100 score
    criteria_met := criteria_met
    agente_code := agente_code
    status := status }

/-- `classify_renovacion` from `email_classifier.py`. -/
def classify_renovacion (o : ReOracle) (metadata : Metadata)
    (attachment_info : AttachmentInfo) (email_content : EmailContent) :
    RenovacionResult :=
  let asunto := pyUpper metadata.subject
  let cuerpo := pyUpper email_content.combined_text
  let ca1 := renovacion_asunto_patterns.any (fun p => o.search p asunto)
  let poliza_number :=
    let a := extract_poliza_number o asunto
    if a ≠ "" then a else extract_poliza_number o cuerpo
  let ca46 := renovacion_cuerpo_patterns.any (fun p => o.search p cuerpo)
  let adj2 := attachment_info.pdf_poliza ≠ [] ∧
    (strContains asunto "RENOVACION" || strContains asunto "RENOVAR") = true
  let adj5 := attachment_info.pdf_cotizacion ≠ [] ∧
    strContains asunto "RENOVACION" = false
  let score : Int :=
    (if ca1 then 35 else 0)
    + (if poliza_number ≠ "" then 20 else 0)
    + (if ca46 then 15 else 0)
    + (if attachment_info.pdf_renovacion ≠ [] then 25 else 0)
    + (if adj2 then 20 else 0)
    - (if adj5 then 20 else 0)
  let criteria_met :=
    (if ca1 then ["CA1: Palabra clave de renovación en asunto"] else [])
    ++ (if poliza_number ≠ "" then ["CA2: Número de póliza detectado"] else [])
    ++ (if ca46 then ["CA4-6: Palabra clave de renovación en cuerpo"] else [])
    ++ (if attachment_info.pdf_renovacion ≠ [] then
          ["CA-Adj1: PDF de renovación presente"] else [])
    ++ (if adj2 then ["CA-Adj2: Documentos de póliza + renovación"] else [])
    ++ (if adj5 then ["CA-Adj5: Prevención falso positivo cotización"] else [])
  let is_ren := decide (score ≥ 40)
  let status :=
    if is_ren = true then
      (if attachment_info.total_attachments > 0 ∧ poliza_number ≠ "" then
        "Renovación con información completa"
       else "Renovación pendiente")
    else ""
  { is_renovacion := is_ren
    confidence := min 100 score
    criteria_met := criteria_met
    poliza_number := poliza_number
    status := status }

/-- `classify_endoso` from `email_classifier.py`. -/
def classify_endoso (o : ReOracle) (metadata : Metadata)
    (attachment_info : AttachmentInfo) (email_content : EmailContent) :
    EndosoResult :=
  let asunto := pyUpper metadata.subject
  let cuerpo := pyUpper email_content.combined_text
  let ca12 := endoso_asunto_patterns.any (fun p => o.search p asunto)
  let endoso_type :=
    if ca12 then
      (if strContains asunto "ENDOSO A" then "A"
       else if strContains asunto "ENDOSO B" then "B"
       else if strContains asunto "ENDOSO DE BP" then "BP"
       else if strContains asunto "ENDOSO ESPECIAL" then "ESPECIAL"
       else "")
    else ""
  let ca34 := endoso_cuerpo_patterns.any (fun p => o.search p cuerpo)
  let poliza_number :=
    let a := extract_poliza_number o asunto
    if a ≠ "" then a else extract_poliza_number o cuerpo
  let ca8 := attachment_info.pdf_poliza ≠ [] ∧
    (strContains asunto "ENDOSO" || strContains asunto "MODIFICACION" ||
     strContains asunto "CORRECCION") = true
  let score : Int :=
    (if ca12 then 35 else 0)
    + (if ca34 then 15 else 0)
    + (if poliza_number ≠ "" then 25 else 0)
    + (if attachment_info.pdf_endoso ≠ [] then 20 else 0)
    + (if ca8 then 15 else 0)
  let criteria_met :=
    (if ca12 then ["CA1-2: Palabra clave de endoso en asunto"] else [])
    ++ (if ca34 then ["CA3-4: Palabra clave de endoso en cuerpo"] else [])
    ++ (if poliza_number ≠ "" then ["CA5: Referencia a póliza vigente"] else [])
    ++ (if attachment_info.pdf_endoso ≠ [] then ["CA7: PDF de endoso presente"] else [])
    ++ (if ca8 then ["CA8: Documentos de respaldo de endoso"] else [])
  let is_end := decide (score ≥ 30)
  let status :=
    if is_end = true then
      (if poliza_number ≠ "" ∧
          (attachment_info.pdf_endoso ≠ [] ∨ attachment_info.pdf_poliza ≠ []) then
        "Endoso completo"
       else "Endoso incompleto")
    else ""
  { is_endoso := is_end
    confidence := min 100 score
    criteria_met := criteria_met
    poliza_number := poliza_number
    endoso_type := endoso_type
    status := status }

/-- The four values `primary_classification['type']` can take in
`classify_email`: the three categories, or `sin_clasificar`. -/
inductive PType
  | cotizacion
  | renovacion
  | endoso
  | sin_clasificar
deriving DecidableEq

/-- The `primary_classification` sub-dictionary built by `classify_email`. -/
structure PrimaryClassification where
  ptype : PType
  confidence : Int
  status : String
deriving DecidableEq

/-- Successful result of `classify_email` for one message. -/
structure ClassifyOk where
  email_id : String
  cotizacion : CotizacionResult
  renovacion : RenovacionResult
  endoso : EndosoResult
  primary : PrimaryClassification
deriving DecidableEq

/-- Body of `classify_email` once the metadata file has been loaded: run
the three evaluators, sort the pairs by confidence (Python's sort is
stable, so on ties the original order cotización, renovación, endoso is
kept; the head of the descending sort is therefore picked by the
comparisons below), and apply the global floor of 30. -/
def classify_email_core (o : ReOracle) (email_id : String) (metadata : Metadata)
    (attachment_info : AttachmentInfo) (email_content : EmailContent) :
    ClassifyOk :=
  let cot := classify_cotizacion o metadata attachment_info email_content
  let ren := classify_renovacion o metadata attachment_info email_content
  let endo := classify_endoso o metadata attachment_info email_content
  let primary :=
    if ren.confidence ≤ cot.confidence ∧ endo.confidence ≤ cot.confidence then
      (PType.cotizacion, cot.confidence, cot.status)
    else if endo.confidence ≤ ren.confidence then
      (PType.renovacion, ren.confidence, ren.status)
    else
      (PType.endoso, endo.confidence, endo.status)
  { email_id := email_id
    cotizacion := cot
    renovacion := ren
    endoso := endo
    primary :=
      { ptype := if primary.2.1 ≥ 30 then primary.1 else PType.sin_clasificar
        confidence := primary.2.1
        status := primary.2.2 } }

/-- `classify_email` from `email_classifier.py`: a missing metadata file
yields the explicit error dictionary (modelled as `Except.error` with the
message the source builds); otherwise the message is classified. -/
def classify_email (o : ReOracle) (email_id : String) (metadata : Option Metadata)
    (attachment_info : AttachmentInfo) (email_content : EmailContent) :
    Except String ClassifyOk :=
  match metadata with
  | none => .error ("Metadatos no encontrados para " ++ email_id)
  | some m => .ok (classify_email_core o email_id m attachment_info email_content)

/-- The accumulator dictionary of `classify_all_emails`. -/
structure AggResults where
  total_emails : Nat := 0
  cotizacion : Nat := 0
  renovacion : Nat := 0
  endoso : Nat := 0
  sin_clasificar : Nat := 0
  emails : List ClassifyOk := []

/-- One message of the store as the aggregator visits it: the id (the
metadata file's stem), the metadata if the file still exists, and the
derived attachment analysis and body text. -/
structure EmailStoreEntry where
  id : String
  meta : Option Metadata
  ai : AttachmentInfo
  content : EmailContent

/-- Bump the counter named by the primary type.  The four possible values
of `primary_classification['type']` are all keys of the results
dictionary, so the `if primary_type in results` guard of the source always
fires. -/
def bump_category (r : AggResults) : PType → AggResults
  | .cotizacion => { r with cotizacion := r.cotizacion + 1 }
  | .renovacion => { r with renovacion := r.renovacion + 1 }
  | .endoso => { r with endoso := r.endoso + 1 }
  | .sin_clasificar => { r with sin_clasificar := r.sin_clasificar + 1 }

/-- One iteration of the `classify_all_emails` loop: `progress.json` is
skipped, an error result is skipped, a successful classification is
appended and counted. -/
def classify_all_step (o : ReOracle) (r : AggResults) (e : EmailStoreEntry) :
    AggResults :=
  if e.id = "progress" then r
  else
    match classify_email o e.id e.meta e.ai e.content with
    | .error _ => r
    | .ok c =>
      bump_category
        { r with
          emails := r.emails ++ [c]
          total_emails := r.total_emails + 1 }
        c.primary.ptype

/-- `classify_all_emails` from `email_classifier.py`, over the metadata
files the glob enumerates. -/
def classify_all_emails (o : ReOracle) (entries : List EmailStoreEntry) :
    AggResults :=
  entries.foldl (classify_all_step o) {}

/-- An attachment of a PST message as `pypff` hands it to
`extract_attachments` in `pst_extractor.py`.  `name` and `long_filename`
are `""` when absent (Python falsiness); `readOk` is whether
`read_buffer` and the file write succeed. -/
structure PffAttachment where
  name : String := ""
  long_filename : String := ""
  data : List Nat := []
  readOk : Bool := true

/-- Filename chosen for attachment number `i`, mirroring the
`attachment_{}` default and the `name` / `long_filename` fallbacks. -/
def attachment_filename (i : Nat) (a : PffAttachment) : String :=
  if a.name ≠ "" then a.name
  else if a.long_filename ≠ "" then a.long_filename
  else "attachment_" ++ toString i

/-- Metadata record appended to the `attachments` list for a written
attachment. -/
structure AttachRecord where
  filename : String
  size : Nat
deriving DecidableEq

/-- The `extract_attachments` loop of `pst_extractor.py` starting at
attachment index `i`: returns the sequence of file writes performed (path
within the message's attachment directory, data) and the metadata records
returned, in read order.  A failing read is caught and skipped. -/
def extract_go (i : Nat) : List PffAttachment →
    List (String × List Nat) × List AttachRecord
  | [] => ([], [])
  | a :: rest =>
    let prev := extract_go (i + 1) rest
    if a.readOk then
      ((attachment_filename i a, a.data) :: prev.1,
       { filename := attachment_filename i a, size := a.data.length } :: prev.2)
    else prev

/-- `extract_attachments` from `pst_extractor.py` (writes performed and
records returned). -/
def pst_extract_attachments (atts : List PffAttachment) :
    List (String × List Nat) × List AttachRecord :=
  extract_go 0 atts

/-- Contents of the message's attachment directory after a sequence of
writes: each write creates or truncates the file at its path, so a later
write to the same path replaces an earlier one. -/
def fileContents : List (String × List Nat) → String → Option (List Nat)
  | [], _ => none
  | w :: ws, p =>
    match fileContents ws p with
    | some d => some d
    | none => if w.1 = p then some w.2 else none

/-- Observable events of `process_message` in `pst_extractor.py`, in the
order they are performed. -/
inductive PMEvent
  | wroteAttachment (index : Nat)
  | wroteEml
  | wroteMetadata
  | addedProgress
deriving DecidableEq

/-- Outcome flags for one `process_message` call: whether the id was
already in the progress list, which attachment writes succeed, whether
`create_eml_file` succeeds (it catches its own exceptions and returns
`None` on failure), and whether the metadata `json.dump` succeeds. -/
structure PMInput where
  alreadyProcessed : Bool := false
  attachmentWriteOk : List Bool := []
  emlOk : Bool := true
  metaOk : Bool := true

/-- Attachment-write events: one per attachment whose extraction
succeeded, in read order. -/
def att_events (oks : List Bool) : List PMEvent :=
  oks.enum.filterMap (fun ia => if ia.2 then some (.wroteAttachment ia.1) else none)

/-- The `.eml` write event, present when `create_eml_file` succeeds. -/
def eml_events (ok : Bool) : List PMEvent :=
  if ok then [.wroteEml] else []

/-- Event trace of one `process_message` call: an already-processed id
returns immediately; otherwise attachments are written, then the `.eml`,
then the metadata record, and only then is the id appended to
`progress_data['processed_emails']`.  A failure of the metadata write
raises, is caught by the surrounding `try`, and prevents the progress
update; failures of the `.eml` or of single attachment writes are caught
inside their own helpers and do not. -/
def process_message_trace (inp : PMInput) : List PMEvent :=
  if inp.alreadyProcessed then []
  else
    att_events inp.attachmentWriteOk ++ eml_events inp.emlOk ++
      (if inp.metaOk then [.wroteMetadata, .addedProgress] else [.wroteMetadata])

/-- How one extraction run ends: normally, with an ordinary exception
(caught by `except Exception` in `extract`, which saves and re-raises), or
interrupted by `KeyboardInterrupt` after `k` messages (`KeyboardInterrupt`
derives from `BaseException`, so `except Exception` does not catch it, and
the handler in `extract_pst.py` only prints). -/
inductive RunEnd
  | completed
  | failed (k : Nat)
  | interrupted (k : Nat)

/-- Progress states written by the periodic checkpoint inside
`process_message`, which saves after every 10th processed message: the
sizes of the progress list at each save, for a run that has processed `k`
messages so far. -/
def periodic_saves (k : Nat) : List Nat :=
  (List.range k).filterMap (fun i => if (i + 1) % 10 = 0 then some (i + 1) else none)

/-- All progress states written to `progress.json` during a run over `n`
messages, in order: the periodic checkpoints, plus the final
`save_progress` of `extract` on normal completion, plus the
`save_progress` of the `except Exception` handler on an ordinary error.
On `KeyboardInterrupt` no further save happens. -/
def run_saves (n : Nat) : RunEnd → List Nat
  | .completed => periodic_saves n ++ [n]
  | .failed k => periodic_saves k ++ [k]
  | .interrupted k => periodic_saves k

/-- Number of processed ids recorded in `progress.json` when the run ends:
the last state written (0 when nothing was ever saved). -/
def final_progress (n : Nat) (e : RunEnd) : Nat :=
  (run_saves n e).getLastD 0

/-- Oracle recording that none of the program's patterns matches the empty
string (`re.search` finds nothing in `""` for any of them, and the capture
helpers return no group). -/
def oracle_false : ReOracle :=
  { search := fun _ _ => false
    searchGroup1 := fun _ _ => none }

/-- Metadata with an empty subject. -/
def meta_empty : Metadata := { subject := "" }

/-- Empty extracted body. -/
def content_empty : EmailContent := { combined_text := "" }

/-- Attachment analysis of a message with no attachment directory. -/
def ai_empty : AttachmentInfo := {}

/-- Attachment analysis of a message whose only attachment is
`POLIZA.PDF`, which `analyze_attachments` categorises as a policy PDF. -/
def ai_poliza : AttachmentInfo := analyze_attachments [{ filename := "POLIZA.PDF" }]

/-- Oracle tabulating `re.search(pat, text, re.IGNORECASE)` for the
uppercased subject `"COTIZACION"` and the empty body: of all the
program's patterns, only the quote subject pattern `\bCOTIZACI[OÓ]N\b`
matches (`COT.`, `COT` standing alone, agent codes, renewal and
endorsement keywords, and all capture patterns find nothing). -/
def oracle_c6 : ReOracle :=
  { search := fun p t => p = "\\bCOTIZACI[OÓ]N\\b" && t = "COTIZACION"
    searchGroup1 := fun _ _ => none }

/-- Oracle tabulating `re.search` for the uppercased subject
`"COTIZACION AGENTE 12"` and the uppercased body
`"SOLICITO SU APOYO COTIZANDO"`: the quote subject patterns
`\bCOTIZACI[OÓ]N\b` and `\bAGENTE\s+\d+` match the subject, the quote body
pattern `solicito su apoyo cotizando` matches the body (IGNORECASE), the
agent-code capture pattern `\bAGENTE\s+(\d+)` captures `"12"` from the
subject, and nothing else the program queries matches. -/
def oracle_c7 : ReOracle :=
  { search := fun p t =>
      (t = "COTIZACION AGENTE 12" &&
        (p = "\\bCOTIZACI[OÓ]N\\b" || p = "\\bAGENTE\\s+\\d+")) ||
      (t = "SOLICITO SU APOYO COTIZANDO" && p = "solicito su apoyo cotizando")
    searchGroup1 := fun p t =>
      if p = "\\bAGENTE\\s+(\\d+)" && t = "COTIZACION AGENTE 12" then some "12"
      else none }

/-- Subject for the quote threshold scenario. -/
def meta_c6 : Metadata := { subject := "COTIZACION" }

/-- Subject for the clamped-score scenario. -/
def meta_c7 : Metadata := { subject := "COTIZACION AGENTE 12" }

/-- Body for the clamped-score scenario. -/
def content_c7 : EmailContent := { combined_text := "solicito su apoyo cotizando" }

/-- Attachments for the clamped-score scenario: a filled SLIP workbook and
a quote PDF. -/
def ai_c7 : AttachmentInfo :=
  analyze_attachments
    [{ filename := "SLIP_CLIENTE.XLSX", filledCells := 10 },
     { filename := "COTIZACION.PDF" }]

/-- Same attachments plus a policy PDF. -/
def ai_c7p : AttachmentInfo :=
  analyze_attachments
    [{ filename := "SLIP_CLIENTE.XLSX", filledCells := 10 },
     { filename := "COTIZACION.PDF" },
     { filename := "POLIZA.PDF" }]

/-- Oracle tabulating `re.search` for the uppercased subject `"ENDOSO A"`
and the empty body: the endorsement subject patterns `\bENDOSO\b` and
`\bENDOSO [AB]\b` match; no quote or renewal pattern matches, and no
capture pattern finds a group. -/
def oracle_c9 : ReOracle :=
  { search := fun p t =>
      t = "ENDOSO A" && (p = "\\bENDOSO\\b" || p = "\\bENDOSO [AB]\\b")
    searchGroup1 := fun _ _ => none }

/-- Subject for the endorsement scenario. -/
def meta_c9 : Metadata := { subject := "ENDOSO A" }

/-- Two attachments of one message bearing the same filename with
different contents. -/
def atts_c5 : List PffAttachment :=
  [{ name := "A.PDF", data := [1] }, { name := "A.PDF", data := [2] }]

set_option maxHeartbeats 1000000 in
/-- C1: every category score is at most 100, but only the Endoso score is
also bounded below by 0: the Cotización score can reach -15 and the
Renovación score -20, because `min(100, score)` clamps only the top and
the contra-indicator penalties can fire with no positive evidence. -/
theorem C1_score_bounds (o : ReOracle) (m : Metadata) (ai : AttachmentInfo)
    (c : EmailContent) :
    (classify_cotizacion o m ai c).confidence ≤ 100 ∧
    -15 ≤ (classify_cotizacion o m ai c).confidence ∧
    (classify_renovacion o m ai c).confidence ≤ 100 ∧
    -20 ≤ (classify_renovacion o m ai c).confidence ∧
    (classify_endoso o m ai c).confidence ≤ 100 ∧
    0 ≤ (classify_endoso o m ai c).confidence := by
  refine ⟨?_, ?_, ?_, ?_, ?_, ?_⟩
  · simp only [classify_cotizacion]; rw [Int.min_def]; split_ifs <;> omega
  · simp only [classify_cotizacion]; rw [Int.min_def]; split_ifs <;> omega
  · simp only [classify_renovacion]; rw [Int.min_def]; split_ifs <;> omega
  · simp only [classify_renovacion]; rw [Int.min_def]; split_ifs <;> omega
  · simp only [classify_endoso]; rw [Int.min_def]; split_ifs <;> omega
  · simp only [classify_endoso]; rw [Int.min_def]; split_ifs <;> omega

set_option maxHeartbeats 1000000 in
/-- C1 counterexample: a message with empty subject and body whose only
attachment is a policy PDF gets Cotización confidence -15, outside
[0,100]. -/
theorem C1_counterexample :
    (classify_cotizacion oracle_false meta_empty ai_poliza content_empty).confidence
      = -15 ∧
    ¬ (0 ≤ (classify_cotizacion oracle_false meta_empty ai_poliza
        content_empty).confidence) := by
  constructor <;> decide

/-- C2: the primary classification carries the highest of the three
category confidences; it is `sin_clasificar` exactly when that maximum is
below the global floor 30, and otherwise names a category whose evaluator
returned that maximum — independently of the per-category `met` flags. -/
theorem C2_primary_is_max (o : ReOracle) (email_id : String) (m : Metadata)
    (ai : AttachmentInfo) (c : EmailContent) :
    (classify_email_core o email_id m ai c).primary.confidence =
      max (classify_cotizacion o m ai c).confidence
        (max (classify_renovacion o m ai c).confidence
          (classify_endoso o m ai c).confidence) ∧
    ((classify_email_core o email_id m ai c).primary.ptype = PType.sin_clasificar ↔
      max (classify_cotizacion o m ai c).confidence
        (max (classify_renovacion o m ai c).confidence
          (classify_endoso o m ai c).confidence) < 30) ∧
    ((classify_email_core o email_id m ai c).primary.ptype = PType.cotizacion →
      (classify_cotizacion o m ai c).confidence =
        (classify_email_core o email_id m ai c).primary.confidence) ∧
    ((classify_email_core o email_id m ai c).primary.ptype = PType.renovacion →
      (classify_renovacion o m ai c).confidence =
        (classify_email_core o email_id m ai c).primary.confidence) ∧
    ((classify_email_core o email_id m ai c).primary.ptype = PType.endoso →
      (classify_endoso o m ai c).confidence =
        (classify_email_core o email_id m ai c).primary.confidence) := by
  simp only [classify_email_core]
  generalize (classify_cotizacion o m ai c) = C
  generalize (classify_renovacion o m ai c) = R
  generalize (classify_endoso o m ai c) = E
  rw [Int.max_def, Int.max_def]
  split_ifs <;> simp_all <;> omega

/-- C2 witness: the selection facts evaluated on a message with no
evidence at all (every confidence 0, so the primary type is
`sin_clasificar`). -/
theorem C2_witness :
    (classify_email_core oracle_false "email_w2" meta_empty ai_empty content_empty).primary.confidence =
      max (classify_cotizacion oracle_false meta_empty ai_empty content_empty).confidence
        (max (classify_renovacion oracle_false meta_empty ai_empty content_empty).confidence
          (classify_endoso oracle_false meta_empty ai_empty content_empty).confidence) ∧
    ((classify_email_core oracle_false "email_w2" meta_empty ai_empty content_empty).primary.ptype = PType.sin_clasificar ↔
      max (classify_cotizacion oracle_false meta_empty ai_empty content_empty).confidence
        (max (classify_renovacion oracle_false meta_empty ai_empty content_empty).confidence
          (classify_endoso oracle_false meta_empty ai_empty content_empty).confidence) < 30) ∧
    ((classify_email_core oracle_false "email_w2" meta_empty ai_empty content_empty).primary.ptype = PType.cotizacion →
      (classify_cotizacion oracle_false meta_empty ai_empty content_empty).confidence =
        (classify_email_core oracle_false "email_w2" meta_empty ai_empty content_empty).primary.confidence) ∧
    ((classify_email_core oracle_false "email_w2" meta_empty ai_empty content_empty).primary.ptype = PType.renovacion →
      (classify_renovacion oracle_false meta_empty ai_empty content_empty).confidence =
        (classify_email_core oracle_false "email_w2" meta_empty ai_empty content_empty).primary.confidence) ∧
    ((classify_email_core oracle_false "email_w2" meta_empty ai_empty content_empty).primary.ptype = PType.endoso →
      (classify_endoso oracle_false meta_empty ai_empty content_empty).confidence =
        (classify_email_core oracle_false "email_w2" meta_empty ai_empty content_empty).primary.confidence) :=
  C2_primary_is_max oracle_false "email_w2" meta_empty ai_empty content_empty

set_option maxHeartbeats 1000000 in
/-- C6: a message whose subject matches a quote subject-keyword pattern
and that presents no other evidence in any category scores exactly 30 on
Cotización, and — because the global floor of `classify_email` is 30, not
the per-category threshold 40 — its primary classification is
`cotizacion`, not `sin_clasificar`. -/
theorem C6_subject_keyword_only (o : ReOracle) (email_id : String) (m : Metadata)
    (c : EmailContent)
    (h1 : cotizacion_asunto_patterns.any (fun p => o.search p (pyUpper m.subject)) = true)
    (h2 : extract_agente_code o (pyUpper m.subject) = "")
    (h3 : extract_agente_code o (pyUpper c.combined_text) = "")
    (h4 : cotizacion_cuerpo_patterns.any (fun p => o.search p (pyUpper c.combined_text)) = false)
    (h5 : renovacion_asunto_patterns.any (fun p => o.search p (pyUpper m.subject)) = false)
    (h6 : renovacion_cuerpo_patterns.any (fun p => o.search p (pyUpper c.combined_text)) = false)
    (h7 : extract_poliza_number o (pyUpper m.subject) = "")
    (h8 : extract_poliza_number o (pyUpper c.combined_text) = "")
    (h9 : endoso_asunto_patterns.any (fun p => o.search p (pyUpper m.subject)) = false)
    (h10 : endoso_cuerpo_patterns.any (fun p => o.search p (pyUpper c.combined_text)) = false) :
    (classify_email_core o email_id m ai_empty c).cotizacion.confidence = 30 ∧
    (classify_email_core o email_id m ai_empty c).primary.ptype = PType.cotizacion := by
  simp [classify_email_core, classify_cotizacion, classify_renovacion, classify_endoso,
    ai_empty, h1, h2, h3, h4, h5, h6, h7, h8, h9, h10]

set_option maxHeartbeats 1000000 in
/-- C6 counterexample: the subject `"COTIZACION"` with empty body and no
attachments matches exactly one quote subject pattern, scores 30, and is
classified `cotizacion` — not `sin_clasificar` as the claim states. -/
theorem C6_counterexample :
    (classify_email_core oracle_c6 "email_c6" meta_c6 ai_empty content_empty).cotizacion.confidence = 30 ∧
    (classify_email_core oracle_c6 "email_c6" meta_c6 ai_empty content_empty).primary.ptype
      = PType.cotizacion ∧
    PType.cotizacion ≠ PType.sin_clasificar := by
  refine ⟨?_, ?_, ?_⟩ <;> decide

set_option maxHeartbeats 1000000 in
/-- C6 witness: the amended statement instantiated at the concrete
subject `"COTIZACION"`. -/
theorem C6_witness :
    (classify_email_core oracle_c6 "email_c6w" meta_c6 ai_empty content_empty).cotizacion.confidence = 30 ∧
    (classify_email_core oracle_c6 "email_c6w" meta_c6 ai_empty content_empty).primary.ptype
      = PType.cotizacion :=
  C6_subject_keyword_only oracle_c6 "email_c6w" meta_c6 content_empty
    (by decide) (by decide) (by decide) (by decide) (by decide) (by decide)
    (by decide) (by decide) (by decide) (by decide)

set_option maxHeartbeats 1000000 in
/-- C7: adding a policy PDF to a message with a quote keyword in the
subject never raises the Cotización confidence; it strictly lowers it
except when both confidences sit at the cap 100 (the penalised raw score
still reaches 100). -/
theorem C7_policy_pdf_suppression (o : ReOracle) (m : Metadata) (c : EmailContent)
    (ai : AttachmentInfo) (l : List String)
    (hk : cotizacion_asunto_patterns.any (fun p => o.search p (pyUpper m.subject)) = true)
    (hp : ai.pdf_poliza = []) (hl : l ≠ []) :
    (classify_cotizacion o m { ai with pdf_poliza := l } c).confidence ≤
      (classify_cotizacion o m ai c).confidence ∧
    ((classify_cotizacion o m { ai with pdf_poliza := l } c).confidence <
      (classify_cotizacion o m ai c).confidence ∨
     ((classify_cotizacion o m ai c).confidence = 100 ∧
      (classify_cotizacion o m { ai with pdf_poliza := l } c).confidence = 100)) := by
  simp only [classify_cotizacion, hp, hl]
  simp only [ne_eq, not_true_eq_false, if_false, not_false_eq_true, if_true]
  rw [Int.min_def, Int.min_def]
  constructor
  · split_ifs <;> omega
  · split_ifs <;> omega

set_option maxHeartbeats 2000000 in
/-- C7 counterexample: a message satisfying every quote criterion (raw
score 125) still has confidence 100 after the policy-PDF penalty (raw
score 110), so the two confidences are equal, not strictly ordered. -/
theorem C7_counterexample :
    (classify_cotizacion oracle_c7 meta_c7 ai_c7 content_c7).confidence = 100 ∧
    (classify_cotizacion oracle_c7 meta_c7 ai_c7p content_c7).confidence = 100 ∧
    ¬ ((classify_cotizacion oracle_c7 meta_c7 ai_c7p content_c7).confidence <
       (classify_cotizacion oracle_c7 meta_c7 ai_c7 content_c7).confidence) := by
  refine ⟨?_, ?_, ?_⟩ <;> decide

set_option maxHeartbeats 1000000 in
/-- C7 witness: the amended comparison instantiated on the subject
`"COTIZACION"` (confidence 30 without the policy PDF, 15 with it). -/
theorem C7_witness :
    (classify_cotizacion oracle_c6 meta_c6 { ai_empty with pdf_poliza := ["POLIZA.PDF"] } content_empty).confidence ≤
      (classify_cotizacion oracle_c6 meta_c6 ai_empty content_empty).confidence ∧
    ((classify_cotizacion oracle_c6 meta_c6 { ai_empty with pdf_poliza := ["POLIZA.PDF"] } content_empty).confidence <
      (classify_cotizacion oracle_c6 meta_c6 ai_empty content_empty).confidence ∨
     ((classify_cotizacion oracle_c6 meta_c6 ai_empty content_empty).confidence = 100 ∧
      (classify_cotizacion oracle_c6 meta_c6 { ai_empty with pdf_poliza := ["POLIZA.PDF"] } content_empty).confidence = 100)) :=
  C7_policy_pdf_suppression oracle_c6 meta_c6 content_empty ai_empty ["POLIZA.PDF"]
    (by decide) rfl (by decide)

set_option maxHeartbeats 1000000 in
/-- C9: a message whose subject is `ENDOSO A` with a policy PDF attached
and no other evidence is classified primary `endoso` with subtype `A`,
but its status is `Endoso incompleto`: the completeness rule of
`classify_endoso` also requires a detected policy number, and the subject
`ENDOSO A` contains none. -/
theorem C9_endoso_a (o : ReOracle) (email_id : String) (m : Metadata) (l : List String)
    (hsub : pyUpper m.subject = "ENDOSO A") (hl : l ≠ [])
    (h1 : o.search "\\bENDOSO\\b" "ENDOSO A" = true)
    (hcot : cotizacion_asunto_patterns.any (fun p => o.search p "ENDOSO A") = false)
    (hcotc : cotizacion_cuerpo_patterns.any (fun p => o.search p "") = false)
    (hren : renovacion_asunto_patterns.any (fun p => o.search p "ENDOSO A") = false)
    (hrenc : renovacion_cuerpo_patterns.any (fun p => o.search p "") = false)
    (hendc : endoso_cuerpo_patterns.any (fun p => o.search p "") = false)
    (hga : extract_agente_code o "ENDOSO A" = "")
    (hgac : extract_agente_code o "" = "")
    (hpn : extract_poliza_number o "ENDOSO A" = "")
    (hpnc : extract_poliza_number o "" = "") :
    (classify_email_core o email_id m { pdf_poliza := l } content_empty).primary.ptype
      = PType.endoso ∧
    (classify_email_core o email_id m { pdf_poliza := l } content_empty).endoso.endoso_type
      = "A" ∧
    (classify_email_core o email_id m { pdf_poliza := l } content_empty).primary.status
      = "Endoso incompleto" := by
  have hup : pyUpper content_empty.combined_text = "" := rfl
  simp [classify_email_core, classify_cotizacion, classify_renovacion, classify_endoso,
    endoso_asunto_patterns, hsub, hup, hl, h1, hcot, hcotc, hren, hrenc, hendc,
    hga, hgac, hpn, hpnc, strContains, containsAux]

set_option maxHeartbeats 2000000 in
/-- C9 counterexample: on the concrete message with subject `ENDOSO A`
and the policy PDF `POLIZA.PDF`, the classifier yields primary `endoso`
and subtype `A` but status `Endoso incompleto`, not `Endoso completo` as
the claim states. -/
theorem C9_counterexample :
    (classify_email_core oracle_c9 "email_c9" meta_c9 ai_poliza content_empty).primary.ptype
      = PType.endoso ∧
    (classify_email_core oracle_c9 "email_c9" meta_c9 ai_poliza content_empty).endoso.endoso_type
      = "A" ∧
    (classify_email_core oracle_c9 "email_c9" meta_c9 ai_poliza content_empty).primary.status
      = "Endoso incompleto" ∧
    ("Endoso incompleto" : String) ≠ "Endoso completo" := by
  refine ⟨?_, ?_, ?_, ?_⟩ <;> decide

set_option maxHeartbeats 1000000 in
/-- C9 witness: the amended statement instantiated on the concrete
`ENDOSO A` message. -/
theorem C9_witness :
    (classify_email_core oracle_c9 "email_c9w" meta_c9 { pdf_poliza := ["POLIZA.PDF"] } content_empty).primary.ptype
      = PType.endoso ∧
    (classify_email_core oracle_c9 "email_c9w" meta_c9 { pdf_poliza := ["POLIZA.PDF"] } content_empty).endoso.endoso_type
      = "A" ∧
    (classify_email_core oracle_c9 "email_c9w" meta_c9 { pdf_poliza := ["POLIZA.PDF"] } content_empty).primary.status
      = "Endoso incompleto" :=
  C9_endoso_a oracle_c9 "email_c9w" meta_c9 ["POLIZA.PDF"]
    (by decide) (by decide) (by decide) (by decide) (by decide) (by decide)
    (by decide) (by decide) (by decide) (by decide) (by decide) (by decide)

/-- Attachment-write events never contain the progress event. -/
theorem addedProgress_not_mem_att (oks : List Bool) :
    PMEvent.addedProgress ∉ att_events oks := by
  intro h
  simp only [att_events, List.mem_filterMap] at h
  obtain ⟨⟨i, b⟩, _, heq⟩ := h
  by_cases hb : b = true
  · subst hb; simp at heq
  · simp [hb] at heq

/-- C3: the progress update is recorded exactly when the message was not
yet processed and the metadata write succeeded, and it is always the last
event of the trace — every write that happened precedes it.  Failures of
the `.eml` write or of individual attachment writes are caught and do not
prevent the update, so the per-message guarantee is not all-or-nothing. -/
theorem C3_progress_last (inp : PMInput) :
    (PMEvent.addedProgress ∈ process_message_trace inp ↔
      (inp.alreadyProcessed = false ∧ inp.metaOk = true)) ∧
    (PMEvent.addedProgress ∈ process_message_trace inp →
      (process_message_trace inp).getLast? = some PMEvent.addedProgress) := by
  obtain ⟨a, oks, e, mo⟩ := inp
  cases a <;> cases e <;> cases mo <;>
    simp [process_message_trace, eml_events, addedProgress_not_mem_att,
      List.getLast?_append]

/-- C3 counterexample: when `create_eml_file` fails (it returns `None`
after catching its own exception) but the metadata write succeeds, the
message id is still added to the progress list even though no `.eml` file
was written. -/
theorem C3_counterexample :
    process_message_trace
      { alreadyProcessed := false, attachmentWriteOk := [], emlOk := false, metaOk := true }
      = [PMEvent.wroteMetadata, PMEvent.addedProgress] ∧
    PMEvent.addedProgress ∈ process_message_trace
      { alreadyProcessed := false, attachmentWriteOk := [], emlOk := false, metaOk := true } ∧
    PMEvent.wroteEml ∉ process_message_trace
      { alreadyProcessed := false, attachmentWriteOk := [], emlOk := false, metaOk := true } := by
  refine ⟨?_, ?_, ?_⟩ <;> decide

/-- C3 witness: the amended statement instantiated on a message with two
attachments, one of which fails to extract. -/
theorem C3_witness :
    (PMEvent.addedProgress ∈ process_message_trace
        { alreadyProcessed := false, attachmentWriteOk := [true, false], emlOk := true, metaOk := true } ↔
      ((false : Bool) = false ∧ (true : Bool) = true)) ∧
    (PMEvent.addedProgress ∈ process_message_trace
        { alreadyProcessed := false, attachmentWriteOk := [true, false], emlOk := true, metaOk := true } →
      (process_message_trace
        { alreadyProcessed := false, attachmentWriteOk := [true, false], emlOk := true, metaOk := true }).getLast?
        = some PMEvent.addedProgress) :=
  C3_progress_last
    { alreadyProcessed := false, attachmentWriteOk := [true, false], emlOk := true, metaOk := true }

/-- C4: progress saved on disk at the end of a run.  A run of 5 messages
interrupted by `KeyboardInterrupt` leaves 0 processed ids on disk (no
periodic checkpoint was reached and no handler saves), while normal
completion and an ordinary exception both leave all 5; a run of 15
interrupted after message 15 keeps only the periodic checkpoint of 10.
This contradicts the claim — and the handler's own printed message — that
the state is saved unconditionally on interruption. -/
theorem C4_interrupt_loses_progress :
    final_progress 5 (RunEnd.interrupted 5) = 0 ∧
    final_progress 5 RunEnd.completed = 5 ∧
    final_progress 5 (RunEnd.failed 5) = 5 ∧
    final_progress 15 (RunEnd.interrupted 15) = 10 ∧
    ¬ final_progress 5 (RunEnd.interrupted 5) = 5 := by
  refine ⟨?_, ?_, ?_, ?_, ?_⟩ <;> decide

/-- Every successful attachment contributes one write and one metadata
record, in read order. -/
theorem extract_go_records (atts : List PffAttachment) : ∀ i : Nat,
    (extract_go i atts).2 =
      (extract_go i atts).1.map (fun w => { filename := w.1, size := w.2.length }) := by
  induction atts with
  | nil => intro i; rfl
  | cons a rest ih =>
    intro i
    simp only [extract_go]
    split_ifs <;> simp [ih]

/-- A sequence of writes leaves each path holding the data of its most
recent write. -/
theorem fileContents_last_write (ws : List (String × List Nat)) (p : String) :
    fileContents ws p =
      (ws.reverse.find? (fun w => w.1 == p)).map (fun w => w.2) := by
  induction ws with
  | nil => rfl
  | cons w ws ih =>
    simp only [fileContents, ih, List.reverse_cons, List.find?_append]
    cases h : ws.reverse.find? (fun w => w.1 == p) with
    | some v => simp [Option.or]
    | none =>
      by_cases hw : w.1 = p
      · have hb : (w.1 == p) = true := by simp [hw]
        simp [Option.or, List.find?, hb, hw]
      · have hb : (w.1 == p) = false := by simp [hw]
        simp [Option.or, List.find?, hb, hw]

/-- C5: the metadata records of `extract_attachments` keep every
successfully read attachment in read order, duplicates included, but on
disk each filename holds only the data of the most recent write to it, so
an earlier attachment with the same name is overwritten. -/
theorem C5_records_and_overwrite (atts : List PffAttachment) :
    (pst_extract_attachments atts).2 =
      (pst_extract_attachments atts).1.map
        (fun w => { filename := w.1, size := w.2.length }) ∧
    ∀ p, fileContents (pst_extract_attachments atts).1 p =
      ((pst_extract_attachments atts).1.reverse.find? (fun w => w.1 == p)).map
        (fun w => w.2) :=
  ⟨extract_go_records atts 0, fun p => fileContents_last_write _ p⟩

/-- C5 counterexample: a message with two attachments both named `A.PDF`
(data `[1]` and `[2]`) produces two writes to the same path and two
metadata records, but the file on disk ends with data `[2]` — the first
attachment's data is dropped. -/
theorem C5_counterexample :
    (pst_extract_attachments atts_c5).1 = [("A.PDF", [1]), ("A.PDF", [2])] ∧
    (pst_extract_attachments atts_c5).2 =
      [{ filename := "A.PDF", size := 1 }, { filename := "A.PDF", size := 1 }] ∧
    fileContents (pst_extract_attachments atts_c5).1 "A.PDF" = some [2] ∧
    ([2] : List Nat) ≠ [1] := by
  refine ⟨?_, ?_, ?_, ?_⟩ <;> decide

/-- An aggregator step on an entry without metadata is a no-op. -/
theorem classify_all_step_none (o : ReOracle) (r : AggResults) (e : EmailStoreEntry)
    (he : e.meta = none) : classify_all_step o r e = r := by
  simp [classify_all_step, classify_email, he]

/-- Bumping a category counter never changes the total. -/
theorem bump_total (r : AggResults) (pt : PType) :
    (bump_category r pt).total_emails = r.total_emails := by
  cases pt <;> rfl

/-- Entries without metadata can be dropped without changing the
aggregation. -/
theorem foldl_filter_meta (o : ReOracle) (entries : List EmailStoreEntry) :
    ∀ r : AggResults,
      entries.foldl (classify_all_step o) r =
        (entries.filter (fun e => e.meta.isSome)).foldl (classify_all_step o) r := by
  induction entries with
  | nil => intro r; rfl
  | cons e rest ih =>
    intro r
    cases he : e.meta with
    | none =>
      rw [List.foldl_cons, classify_all_step_none o r e he]
      simp [List.filter, he]
      exact ih r
    | some m =>
      rw [List.foldl_cons]
      simp [List.filter, he]
      exact ih _

/-- The total counts exactly the entries that are neither the progress
file nor missing their metadata. -/
theorem foldl_total_count (o : ReOracle) (entries : List EmailStoreEntry) :
    ∀ r : AggResults,
      (entries.foldl (classify_all_step o) r).total_emails =
        r.total_emails +
          (entries.filter (fun e => (e.id != "progress") && e.meta.isSome)).length := by
  induction entries with
  | nil => intro r; simp
  | cons e rest ih =>
    intro r
    rw [List.foldl_cons]
    by_cases hid : e.id = "progress"
    · have hstep : classify_all_step o r e = r := by simp [classify_all_step, hid]
      have hf : (e.id != "progress") = false := by simp [hid]
      rw [hstep]
      simp [List.filter, hf]
      exact ih r
    · have hf : (e.id != "progress") = true := by simp [hid]
      cases he : e.meta with
      | none =>
        rw [classify_all_step_none o r e he]
        simp [List.filter, hf, he]
        exact ih r
      | some m =>
        have hstep : classify_all_step o r e =
            bump_category
              { r with
                emails := r.emails ++ [classify_email_core o e.id m e.ai e.content]
                total_emails := r.total_emails + 1 }
              (classify_email_core o e.id m e.ai e.content).primary.ptype := by
          simp [classify_all_step, classify_email, hid, he]
        rw [hstep]
        simp [List.filter, hf, he]
        rw [ih _, bump_total]
        simp
        omega

/-- C8: classification never raises on a missing metadata file — it
returns the explicit per-message error result — and the aggregator skips
such messages and keeps processing the rest of the batch: the aggregation
equals the aggregation over the entries that do have metadata, and every
such entry is counted. -/
theorem C8_missing_metadata (o : ReOracle) (email_id : String) (ai : AttachmentInfo)
    (c : EmailContent) (entries : List EmailStoreEntry) :
    classify_email o email_id none ai c =
      Except.error ("Metadatos no encontrados para " ++ email_id) ∧
    classify_all_emails o entries =
      classify_all_emails o (entries.filter (fun e => e.meta.isSome)) ∧
    (classify_all_emails o entries).total_emails =
      (entries.filter (fun e => (e.id != "progress") && e.meta.isSome)).length := by
  refine ⟨rfl, foldl_filter_meta o entries {}, ?_⟩
  have h := foldl_total_count o entries {}
  simpa using h

/-- One aggregator step preserves the counting invariant. -/
theorem step_preserves_partition (o : ReOracle) (r : AggResults) (e : EmailStoreEntry)
    (h1 : r.total_emails = r.emails.length)
    (h2 : r.total_emails =
      r.cotizacion + r.renovacion + r.endoso + r.sin_clasificar) :
    (classify_all_step o r e).total_emails = (classify_all_step o r e).emails.length ∧
    (classify_all_step o r e).total_emails =
      (classify_all_step o r e).cotizacion + (classify_all_step o r e).renovacion +
      (classify_all_step o r e).endoso + (classify_all_step o r e).sin_clasificar := by
  by_cases hid : e.id = "progress"
  · have hstep : classify_all_step o r e = r := by simp [classify_all_step, hid]
    rw [hstep]; exact ⟨h1, h2⟩
  · cases he : e.meta with
    | none =>
      rw [classify_all_step_none o r e he]; exact ⟨h1, h2⟩
    | some m =>
      have hstep : classify_all_step o r e =
          bump_category
            { r with
              emails := r.emails ++ [classify_email_core o e.id m e.ai e.content]
              total_emails := r.total_emails + 1 }
            (classify_email_core o e.id m e.ai e.content).primary.ptype := by
        simp [classify_all_step, classify_email, hid, he]
      rw [hstep]
      cases (classify_email_core o e.id m e.ai e.content).primary.ptype <;>
        simp [bump_category, h1, h2] <;> omega

/-- The counting invariant holds along the whole fold. -/
theorem foldl_preserves_partition (o : ReOracle) (entries : List EmailStoreEntry) :
    ∀ r : AggResults,
      r.total_emails = r.emails.length →
      r.total_emails = r.cotizacion + r.renovacion + r.endoso + r.sin_clasificar →
      (entries.foldl (classify_all_step o) r).total_emails =
          (entries.foldl (classify_all_step o) r).emails.length ∧
      (entries.foldl (classify_all_step o) r).total_emails =
          (entries.foldl (classify_all_step o) r).cotizacion +
          (entries.foldl (classify_all_step o) r).renovacion +
          (entries.foldl (classify_all_step o) r).endoso +
          (entries.foldl (classify_all_step o) r).sin_clasificar := by
  induction entries with
  | nil => intro r h1 h2; exact ⟨h1, h2⟩
  | cons e rest ih =>
    intro r h1 h2
    rw [List.foldl_cons]
    obtain ⟨g1, g2⟩ := step_preserves_partition o r e h1 h2
    exact ih _ g1 g2

/-- C10: in every aggregation result, `total_emails` equals the length of
the `emails` list and equals the sum of the four category counters — each
successfully classified message is counted in exactly one category. -/
theorem C10_counts_partition (o : ReOracle) (entries : List EmailStoreEntry) :
    (classify_all_emails o entries).total_emails =
      (classify_all_emails o entries).emails.length ∧
    (classify_all_emails o entries).total_emails =
      (classify_all_emails o entries).cotizacion +
      (classify_all_emails o entries).renovacion +
      (classify_all_emails o entries).endoso +
      (classify_all_emails o entries).sin_clasificar :=
  foldl_preserves_partition o entries {} rfl rfl
